import Mathlib

/-!
Verification of the mountain-comparison tool's core: the scaling engine
(src/src/utils scaling utilities), the selection toggle, the data validator
and the data loader, embedded shallowly.  JS numbers are modelled as
rationals (every program value exercised here is finite); JS strings as
`String`; thrown exceptions as `Except` errors.
-/

namespace OhMyMountain

/-- Entity record from src/src/types/Mountain.ts: a mountain with its
dimensions and optional metadata. -/
structure Mountain where
  id : String
  name : String
  height : ℚ
  width : ℚ
  country : Option String
  region : Option String
  deriving DecidableEq, Repr

/-- The JS expression `Math.max(...xs)` over a spread array.  On an empty
array JS yields `-Infinity`; every call site in the source guards
non-emptiness before calling, so the `[]` case below is never reached and
carries the junk value `0`. -/
def mathMax : List ℚ → ℚ
  | [] => 0
  | x :: xs => xs.foldl max x

/-- Result shape of `calculateMaxDimensions`. -/
structure MaxDimensions where
  maxHeight : ℚ
  maxWidth : ℚ
  deriving DecidableEq, Repr

/-- `calculateMaxDimensions` from the scaling utilities: `{0, 0}` for an
empty list, otherwise the elementwise maxima of heights and widths. -/
def calculateMaxDimensions (mountains : List Mountain) : MaxDimensions :=
  if mountains.length = 0 then { maxHeight := 0, maxWidth := 0 }
  else
    { maxHeight := mathMax (mountains.map (fun mountain => mountain.height)),
      maxWidth := mathMax (mountains.map (fun mountain => mountain.width)) }

/-- Argument shape of `calculateScaleFactor`. -/
structure ContainerDimensions where
  containerWidth : ℚ
  containerHeight : ℚ
  deriving DecidableEq, Repr

/-- `calculateScaleFactor` from the scaling utilities: `0` when either
maximum dimension is `0`, otherwise the minimum of the two per-axis
candidate scales computed from the margin-adjusted container. -/
def calculateScaleFactor (maxDimensions : MaxDimensions)
    (containerDimensions : ContainerDimensions) (marginRatio : ℚ) : ℚ :=
  if maxDimensions.maxHeight = 0 ∨ maxDimensions.maxWidth = 0 then 0
  else
    let availableWidth := containerDimensions.containerWidth * (1 - marginRatio * 2)
    let availableHeight := containerDimensions.containerHeight * (1 - marginRatio * 2)
    let widthScale := availableWidth / maxDimensions.maxWidth
    let heightScale := availableHeight / maxDimensions.maxHeight
    min widthScale heightScale

/-- Default value of the `marginRatio` parameter in the source (`0.1`). -/
def marginDefault : ℚ := 1/10

/-- Result shape of `calculateScaledDimensions`. -/
structure ScaledDimensions where
  scaledWidth : ℚ
  scaledHeight : ℚ
  deriving DecidableEq, Repr

/-- `calculateScaledDimensions` from the scaling utilities. -/
def calculateScaledDimensions (mountain : Mountain) (scaleFactor : ℚ) :
    ScaledDimensions :=
  { scaledWidth := mountain.width * scaleFactor,
    scaledHeight := mountain.height * scaleFactor }

/-- The three vertices of the SVG path produced by `generateTrianglePath`:
the source emits the string `M top L bottomLeft L bottomRight Z`, which
serializes exactly these three points. -/
structure TrianglePath where
  top : ℚ × ℚ
  bottomLeft : ℚ × ℚ
  bottomRight : ℚ × ℚ
  deriving DecidableEq, Repr

/-- `generateTrianglePath` from the scaling utilities: an isosceles
triangle, apex centered at the top, base corners at the bottom. -/
def generateTrianglePath (mountain : Mountain) (scaleFactor : ℚ) : TrianglePath :=
  let scaledHeight := mountain.height * scaleFactor
  let scaledWidth := mountain.width * scaleFactor
  { top := (scaledWidth / 2, 0),
    bottomLeft := (0, scaledHeight),
    bottomRight := (scaledWidth, scaledHeight) }

/-- Rendering of a JS number inside a template string.  JS prints an
integer-valued double without a decimal point, which this reproduces
exactly; the decimal rendering of non-integer doubles is abstracted by the
`toString` fallback (no theorem below depends on that case). -/
def jsNumberToString (q : ℚ) : String :=
  if q.den = 1 then toString q.num else toString q

/-- Default value of the `spacing` parameter of `calculateSVGViewBox` (`20`). -/
def spacingDefault : ℚ := 20

/-- `calculateSVGViewBox` from the scaling utilities: the fixed sentinel for
an empty list, otherwise `0 0 totalWidth maxHeight` with the total scaled
width (plus inter-triangle spacing) and the maximal scaled height. -/
def calculateSVGViewBox (mountains : List Mountain) (scaleFactor : ℚ)
    (spacing : ℚ) : String :=
  if mountains.length = 0 then
    "0 0 100 100"
  else
    let scaledMountains :=
      mountains.map (fun mountain => calculateScaledDimensions mountain scaleFactor)
    let totalWidth :=
      scaledMountains.foldl (fun sum mountain => sum + mountain.scaledWidth) 0 +
        ((mountains.length : ℚ) - 1) * spacing
    let maxHeight := mathMax (scaledMountains.map (fun mountain => mountain.scaledHeight))
    "0 0 " ++ jsNumberToString totalWidth ++ " " ++ jsNumberToString maxHeight

/-- The selection-toggle state update from App.tsx (`handleMountainToggle`):
remove when a member with the same id is present, append when below the cap
of 10, otherwise leave the selection unchanged. -/
def handleMountainToggle (prev : List Mountain) (mountain : Mountain) :
    List Mountain :=
  if prev.any (fun m => m.id == mountain.id) then
    prev.filter (fun m => m.id != mountain.id)
  else if prev.length ≥ 10 then
    prev
  else
    prev ++ [mountain]

/-- A JS number as the validator observes it: a finite value, `NaN`, or one
of the two infinities. -/
inductive JSNumber where
  | finite (q : ℚ)
  | nan
  | posInf
  | negInf
  deriving DecidableEq, Repr

/-- The JS predicate `isNaN(value)` on a number. -/
def JSNumber.isNaN : JSNumber → Bool
  | .nan => true
  | _ => false

/-- The JS comparison `value > 0` on a number (`NaN > 0` is false,
`Infinity > 0` is true, `-Infinity > 0` is false). -/
def JSNumber.gtZero : JSNumber → Bool
  | .finite q => decide (0 < q)
  | .nan => false
  | .posInf => true
  | .negInf => false

/-- A JS value in a field position of a raw (not yet validated) record:
enough of `unknown` to cover every `typeof` branch the validator takes. -/
inductive JSValue where
  | str (s : String)
  | number (n : JSNumber)
  | undefined
  | nullVal
  | boolean (b : Bool)
  deriving DecidableEq, Repr

/-- A raw element of the `mountains` array before validation: each field of
interest read off the object (a missing JS property reads as `undefined`). -/
structure RawMountain where
  id : JSValue
  name : JSValue
  height : JSValue
  width : JSValue
  country : JSValue
  region : JSValue
  deriving DecidableEq, Repr

/-- `ValidationError` from src/src/utils/dataValidator.ts: carries a
message, an optional offending field name and an optional element index. -/
structure ValidationError where
  message : String
  field : Option String
  index : Option Nat
  deriving DecidableEq, Repr

/-- A whitespace character as `String.prototype.trim` strips it (restricted
to the common ASCII whitespace; no claim depends on the exotic ones). -/
def isWhitespaceChar (c : Char) : Bool :=
  c == ' ' || c == '\t' || c == '\n' || c == '\r'

/-- Leading whitespace removal on a character list. -/
def dropLeadingWs : List Char → List Char
  | [] => []
  | c :: cs => if isWhitespaceChar c then dropLeadingWs cs else c :: cs

/-- `value.trim()` on a string's characters: strip whitespace at both ends. -/
def jsTrimChars (cs : List Char) : List Char :=
  ((dropLeadingWs ((dropLeadingWs cs).reverse)).reverse)

/-- `isValidString` from the validator: a string whose trim is non-empty. -/
def isValidString : JSValue → Bool
  | JSValue.str s => decide (0 < (jsTrimChars s.toList).length)
  | _ => false

/-- `isValidPositiveNumber` from the validator: `typeof value === 'number'
&& !isNaN(value) && value > 0`.  Note the absence of a finiteness check. -/
def isValidPositiveNumber : JSValue → Bool
  | JSValue.number n => !n.isNaN && n.gtZero
  | _ => false

/-- `isValidOptionalString` from the validator. -/
def isValidOptionalString : JSValue → Bool
  | JSValue.undefined => true
  | v => isValidString v

/-- The ` at index i` suffix the validator appends to messages when an
index was supplied. -/
def indexSuffix : Option Nat → String
  | some i => " at index " ++ toString i
  | none => ""

/-- `validateMountain` from the validator, on an element that is an object
(the non-object guard on the raw value is taken before the fields are
read; the claims below quantify over object elements).  Checks the fields
in source order and reports the first offending one. -/
def validateMountain (obj : RawMountain) (index : Option Nat) :
    Except ValidationError Unit :=
  if !isValidString obj.id then
    Except.error
      { message := "Mountain id must be a non-empty string" ++ indexSuffix index,
        field := some "id", index := index }
  else if !isValidString obj.name then
    Except.error
      { message := "Mountain name must be a non-empty string" ++ indexSuffix index,
        field := some "name", index := index }
  else if !isValidPositiveNumber obj.height then
    Except.error
      { message := "Mountain height must be a positive number" ++ indexSuffix index,
        field := some "height", index := index }
  else if !isValidPositiveNumber obj.width then
    Except.error
      { message := "Mountain width must be a positive number" ++ indexSuffix index,
        field := some "width", index := index }
  else if !isValidOptionalString obj.country then
    Except.error
      { message := "Mountain country must be a string or undefined" ++ indexSuffix index,
        field := some "country", index := index }
  else if !isValidOptionalString obj.region then
    Except.error
      { message := "Mountain region must be a string or undefined" ++ indexSuffix index,
        field := some "region", index := index }
  else
    Except.ok ()

/-- The string content of a validated id field (after `validateMountain`
succeeds the id is a `str`; the default is never reached then). -/
def jsIdString : JSValue → String
  | JSValue.str s => s
  | _ => ""

/-- The `forEach` loop of `validateMountains`: validate each element at its
index and reject a duplicate id against the ids seen so far. -/
def validateMountainsLoop : List RawMountain → Nat → List String →
    Except ValidationError Unit
  | [], _, _ => Except.ok ()
  | m :: rest, i, seenIds =>
    match validateMountain m (some i) with
    | Except.error e => Except.error e
    | Except.ok _ =>
      let s := jsIdString m.id
      if seenIds.contains s then
        Except.error
          { message := "Duplicate mountain ID \"" ++ s ++ "\" at index " ++ toString i,
            field := some "id", index := some i }
      else
        validateMountainsLoop rest (i + 1) (s :: seenIds)

/-- `validateMountains` from the validator, on a value already known to be
an array: rejects the empty array, then runs the per-element loop. -/
def validateMountains (mountains : List RawMountain) :
    Except ValidationError Unit :=
  if mountains.length = 0 then
    Except.error { message := "Mountains array cannot be empty", field := none, index := none }
  else
    validateMountainsLoop mountains 0 []

/-- The parsed JSON document as `validateMountainData` inspects it: not an
object, an object without a `mountains` key, a `mountains` key that is not
an array, or an array of element objects. -/
inductive RawData where
  | notObject
  | objectWithoutMountains
  | mountainsNotArray
  | mountainsArray (elems : List RawMountain)
  deriving DecidableEq, Repr

/-- `validateMountainData` from the validator: checks the top-level shape
and returns the (unchanged) array of elements on success. -/
def validateMountainData (data : RawData) : Except ValidationError (List RawMountain) :=
  match data with
  | RawData.notObject =>
    Except.error { message := "Data must be an object", field := none, index := none }
  | RawData.objectWithoutMountains =>
    Except.error
      { message := "Data must contain a \"mountains\" property", field := none, index := none }
  | RawData.mountainsNotArray =>
    Except.error
      { message := "Mountains property must be an array", field := none, index := none }
  | RawData.mountainsArray elems =>
    match validateMountains elems with
    | Except.error e => Except.error e
    | Except.ok _ => Except.ok elems

/-- An error value thrown inside `loadMountainData` (src/src/utils
dataLoader): the loader's own `DataLoadError` (name `DataLoadError`,
optional wrapped cause) or one of the primitive errors it catches. -/
inductive JSError where
  | dataLoadError (message : String) (cause : Option JSError)
  | validationError (e : ValidationError)
  | typeError (message : String)
  | syntaxError (message : String)
  deriving Repr

/-- The `name` property of a thrown error: the JS class name the caller
would use to tell error kinds apart. -/
def JSError.jsName : JSError → String
  | .dataLoadError _ _ => "DataLoadError"
  | .validationError _ => "ValidationError"
  | .typeError _ => "TypeError"
  | .syntaxError _ => "SyntaxError"

/-- The outcome of the `fetch`/`response.json()` prelude of
`loadMountainData`: the transport rejects with a `TypeError`, the response
arrives with a non-ok HTTP status, the body fails to parse (a
`SyntaxError`), or a JSON document is produced. -/
inductive FetchResult where
  | networkFailure (message : String)
  | httpError (status : Nat) (statusText : String)
  | parseFailure (message : String)
  | parsed (data : RawData)
  deriving DecidableEq, Repr

/-- The check `error.message.includes('fetch') ||
error.message.includes('Failed to fetch')` from the loader's catch block. -/
def messageMentionsFetch (s : String) : Bool :=
  decide (List.IsInfix "fetch".toList s.toList) ||
    decide (List.IsInfix "Failed to fetch".toList s.toList)

/-- `loadMountainData` from src/src/utils (dataLoader): the try block and
its catch-and-rewrap dispatch fused over the fetch outcome.  Every failure
path rethrows a `DataLoadError`. -/
def loadMountainData (fetchResult : FetchResult) : Except JSError (List RawMountain) :=
  match fetchResult with
  | FetchResult.networkFailure msg =>
    if messageMentionsFetch msg then
      Except.error (JSError.dataLoadError "Network error: Unable to fetch mountain data"
        (some (JSError.typeError msg)))
    else
      Except.error (JSError.dataLoadError "Unexpected error loading mountain data"
        (some (JSError.typeError msg)))
  | FetchResult.httpError status statusText =>
    Except.error (JSError.dataLoadError
      ("Failed to load mountain data: " ++ toString status ++ " " ++ statusText) none)
  | FetchResult.parseFailure msg =>
    Except.error (JSError.dataLoadError "Invalid JSON format in mountain data"
      (some (JSError.syntaxError msg)))
  | FetchResult.parsed data =>
    match validateMountainData data with
    | Except.error e =>
      Except.error (JSError.dataLoadError ("Data validation failed: " ++ e.message)
        (some (JSError.validationError e)))
    | Except.ok mountains => Except.ok mountains

/-- The JS class name of the error of a failed run (`none` on success). -/
def errName {α : Type} : Except JSError α → Option String
  | Except.error e => some e.jsName
  | Except.ok _ => none

/-- Sample entity used to instantiate universally quantified theorems. -/
def mountainA : Mountain :=
  { id := "a", name := "A", height := 3, width := 1, country := none, region := none }

/-- Second sample entity, with a different id. -/
def mountainB : Mountain :=
  { id := "b", name := "B", height := 2, width := 5, country := none, region := none }

theorem le_foldl_max (l : List ℚ) : ∀ x : ℚ, x ≤ l.foldl max x := by
  induction l with
  | nil => intro x; exact le_refl x
  | cons b t ih => intro x; exact le_trans (le_max_left x b) (ih (max x b))

theorem le_foldl_max_of_mem (l : List ℚ) :
    ∀ x a : ℚ, a ∈ l → a ≤ l.foldl max x := by
  induction l with
  | nil => intro x a h; exact absurd h (List.not_mem_nil a)
  | cons b t ih =>
    intro x a h
    rcases List.mem_cons.mp h with rfl | h
    · exact le_trans (le_max_right x a) (le_foldl_max t (max x a))
    · exact ih (max x b) a h

theorem foldl_max_cases (l : List ℚ) :
    ∀ x : ℚ, l.foldl max x = x ∨ l.foldl max x ∈ l := by
  induction l with
  | nil => intro x; exact Or.inl rfl
  | cons b t ih =>
    intro x
    rw [List.foldl_cons]
    rcases ih (max x b) with h | h
    · rw [h]
      rcases le_total x b with hxb | hbx
      · exact Or.inr (by rw [max_eq_right hxb]; exact List.mem_cons_self b t)
      · exact Or.inl (max_eq_left hbx)
    · exact Or.inr (List.mem_cons_of_mem b h)

theorem mathMax_mem : ∀ {l : List ℚ}, l ≠ [] → mathMax l ∈ l := by
  intro l h
  match l with
  | [] => exact absurd rfl h
  | x :: xs =>
    show xs.foldl max x ∈ x :: xs
    rcases foldl_max_cases xs x with h1 | h1
    · rw [h1]; exact List.mem_cons_self x xs
    · exact List.mem_cons_of_mem x h1

theorem le_mathMax : ∀ {l : List ℚ} {a : ℚ}, a ∈ l → a ≤ mathMax l := by
  intro l a h
  match l with
  | [] => exact absurd h (List.not_mem_nil a)
  | x :: xs =>
    show a ≤ xs.foldl max x
    rcases List.mem_cons.mp h with rfl | h1
    · exact le_foldl_max xs a
    · exact le_foldl_max_of_mem xs x a h1

theorem foldl_scaledWidth_sum (l : List ScaledDimensions) :
    ∀ a : ℚ, l.foldl (fun sum sd => sum + sd.scaledWidth) a =
      a + (l.map (fun sd => sd.scaledWidth)).sum := by
  induction l with
  | nil => intro a; simp
  | cons b t ih =>
    intro a
    rw [List.foldl_cons, ih, List.map_cons, List.sum_cons, add_assoc]

theorem calculateScaleFactor_eq (maxDimensions : MaxDimensions)
    (containerDimensions : ContainerDimensions) (marginRatio : ℚ)
    (h1 : maxDimensions.maxHeight ≠ 0) (h2 : maxDimensions.maxWidth ≠ 0) :
    calculateScaleFactor maxDimensions containerDimensions marginRatio =
      min (containerDimensions.containerWidth * (1 - marginRatio * 2) / maxDimensions.maxWidth)
        (containerDimensions.containerHeight * (1 - marginRatio * 2) / maxDimensions.maxHeight) := by
  simp [calculateScaleFactor, h1, h2]

/-- Claim C1: `calculateScaleFactor` returns `0` when `maxHeight = 0` or
`maxWidth = 0`, and otherwise the minimum of the two margin-adjusted
per-axis candidate scales; the `marginRatio` default is `0.1`. -/
theorem calculateScaleFactor_cases (maxDimensions : MaxDimensions)
    (containerDimensions : ContainerDimensions) (marginRatio : ℚ)
    (hH : 0 ≤ maxDimensions.maxHeight) (hW : 0 ≤ maxDimensions.maxWidth)
    (hcW : 0 ≤ containerDimensions.containerWidth)
    (hcH : 0 ≤ containerDimensions.containerHeight) :
    (maxDimensions.maxHeight = 0 ∨ maxDimensions.maxWidth = 0 →
      calculateScaleFactor maxDimensions containerDimensions marginRatio = 0) ∧
    (maxDimensions.maxHeight ≠ 0 → maxDimensions.maxWidth ≠ 0 →
      calculateScaleFactor maxDimensions containerDimensions marginRatio =
        min (containerDimensions.containerWidth * (1 - 2 * marginRatio) /
            maxDimensions.maxWidth)
          (containerDimensions.containerHeight * (1 - 2 * marginRatio) /
            maxDimensions.maxHeight)) ∧
    marginDefault = 1/10 := by
  refine ⟨?_, ?_, rfl⟩
  · intro h
    simp [calculateScaleFactor, h]
  · intro h1 h2
    rw [calculateScaleFactor_eq maxDimensions containerDimensions marginRatio h1 h2]
    congr 2 <;> ring

/-- Witness for C1 at concrete inputs. -/
theorem calculateScaleFactor_cases_inst :
    calculateScaleFactor { maxHeight := 0, maxWidth := 5 }
        { containerWidth := 100, containerHeight := 200 } (1/10) = 0 ∧
    calculateScaleFactor { maxHeight := 4, maxWidth := 5 }
        { containerWidth := 100, containerHeight := 200 } (1/10) =
      min ((100 : ℚ) * (1 - 2 * (1/10)) / 5) ((200 : ℚ) * (1 - 2 * (1/10)) / 4) := by
  constructor
  · exact (calculateScaleFactor_cases { maxHeight := 0, maxWidth := 5 }
      { containerWidth := 100, containerHeight := 200 } (1/10)
      (by norm_num) (by norm_num) (by norm_num) (by norm_num)).1 (Or.inl rfl)
  · exact (calculateScaleFactor_cases { maxHeight := 4, maxWidth := 5 }
      { containerWidth := 100, containerHeight := 200 } (1/10)
      (by norm_num) (by norm_num) (by norm_num) (by norm_num)).2.1
      (by norm_num) (by norm_num)

/-- Claim C2: with the default margin ratio, the scale factor produced for
strictly positive inputs fits the tallest and widest entity inside the
margin-adjusted container in both axes. -/
theorem calculateScaleFactor_fits
    (maxHeight maxWidth containerWidth containerHeight : ℚ)
    (hH : 0 < maxHeight) (hW : 0 < maxWidth)
    (hcW : 0 < containerWidth) (hcH : 0 < containerHeight) :
    maxHeight * calculateScaleFactor { maxHeight := maxHeight, maxWidth := maxWidth }
        { containerWidth := containerWidth, containerHeight := containerHeight }
        marginDefault ≤
      containerHeight * (1 - 2 * marginDefault) ∧
    maxWidth * calculateScaleFactor { maxHeight := maxHeight, maxWidth := maxWidth }
        { containerWidth := containerWidth, containerHeight := containerHeight }
        marginDefault ≤
      containerWidth * (1 - 2 * marginDefault) := by
  have hH' : maxHeight ≠ 0 := ne_of_gt hH
  have hW' : maxWidth ≠ 0 := ne_of_gt hW
  rw [calculateScaleFactor_eq _ _ _ hH' hW']
  constructor
  · have h1 : min (containerWidth * (1 - marginDefault * 2) / maxWidth)
        (containerHeight * (1 - marginDefault * 2) / maxHeight) ≤
        containerHeight * (1 - marginDefault * 2) / maxHeight := min_le_right _ _
    have h2 := mul_le_mul_of_nonneg_left h1 (le_of_lt hH)
    have h3 : maxHeight * (containerHeight * (1 - marginDefault * 2) / maxHeight) =
        containerHeight * (1 - 2 * marginDefault) := by
      rw [mul_comm maxHeight (containerHeight * (1 - marginDefault * 2) / maxHeight),
        div_mul_cancel₀ _ hH']
      ring
    exact le_trans h2 (le_of_eq h3)
  · have h1 : min (containerWidth * (1 - marginDefault * 2) / maxWidth)
        (containerHeight * (1 - marginDefault * 2) / maxHeight) ≤
        containerWidth * (1 - marginDefault * 2) / maxWidth := min_le_left _ _
    have h2 := mul_le_mul_of_nonneg_left h1 (le_of_lt hW)
    have h3 : maxWidth * (containerWidth * (1 - marginDefault * 2) / maxWidth) =
        containerWidth * (1 - 2 * marginDefault) := by
      rw [mul_comm maxWidth (containerWidth * (1 - marginDefault * 2) / maxWidth),
        div_mul_cancel₀ _ hW']
      ring
    exact le_trans h2 (le_of_eq h3)

/-- Witness for C2 at concrete inputs. -/
theorem calculateScaleFactor_fits_inst :
    (2 : ℚ) * calculateScaleFactor { maxHeight := 2, maxWidth := 3 }
        { containerWidth := 30, containerHeight := 20 } marginDefault ≤
      20 * (1 - 2 * marginDefault) ∧
    (3 : ℚ) * calculateScaleFactor { maxHeight := 2, maxWidth := 3 }
        { containerWidth := 30, containerHeight := 20 } marginDefault ≤
      30 * (1 - 2 * marginDefault) :=
  calculateScaleFactor_fits 2 3 30 20 (by norm_num) (by norm_num) (by norm_num)
    (by norm_num)

/-- Claim C3: `calculateMaxDimensions` returns `{0, 0}` on the empty list
and, on a non-empty list, the elementwise maxima of the heights and widths,
taken independently. -/
theorem calculateMaxDimensions_spec (mountains : List Mountain) :
    calculateMaxDimensions [] = { maxHeight := 0, maxWidth := 0 } ∧
    (mountains ≠ [] →
      (∃ m ∈ mountains, m.height = (calculateMaxDimensions mountains).maxHeight) ∧
      (∀ m ∈ mountains, m.height ≤ (calculateMaxDimensions mountains).maxHeight) ∧
      (∃ m ∈ mountains, m.width = (calculateMaxDimensions mountains).maxWidth) ∧
      (∀ m ∈ mountains, m.width ≤ (calculateMaxDimensions mountains).maxWidth)) := by
  constructor
  · rfl
  · intro h
    have hlen : ¬ mountains.length = 0 := by simpa [List.length_eq_zero] using h
    have hd : calculateMaxDimensions mountains =
        { maxHeight := mathMax (mountains.map (fun mountain => mountain.height)),
          maxWidth := mathMax (mountains.map (fun mountain => mountain.width)) } := by
      simp [calculateMaxDimensions, hlen]
    rw [hd]
    have hmapH : mountains.map (fun mountain => mountain.height) ≠ [] := by
      simpa using h
    have hmapW : mountains.map (fun mountain => mountain.width) ≠ [] := by
      simpa using h
    refine ⟨?_, ?_, ?_, ?_⟩
    · obtain ⟨m, hm, hv⟩ := List.mem_map.mp (mathMax_mem hmapH)
      exact ⟨m, hm, hv⟩
    · intro m hm
      exact le_mathMax (List.mem_map_of_mem _ hm)
    · obtain ⟨m, hm, hv⟩ := List.mem_map.mp (mathMax_mem hmapW)
      exact ⟨m, hm, hv⟩
    · intro m hm
      exact le_mathMax (List.mem_map_of_mem _ hm)

/-- Witness for C3 at a concrete two-element list. -/
theorem calculateMaxDimensions_spec_inst :
    (∃ m ∈ [mountainA, mountainB],
      m.height = (calculateMaxDimensions [mountainA, mountainB]).maxHeight) ∧
    (∀ m ∈ [mountainA, mountainB],
      m.height ≤ (calculateMaxDimensions [mountainA, mountainB]).maxHeight) ∧
    (∃ m ∈ [mountainA, mountainB],
      m.width = (calculateMaxDimensions [mountainA, mountainB]).maxWidth) ∧
    (∀ m ∈ [mountainA, mountainB],
      m.width ≤ (calculateMaxDimensions [mountainA, mountainB]).maxWidth) :=
  (calculateMaxDimensions_spec [mountainA, mountainB]).2 (by simp)

/-- Claim C4: `generateTrianglePath` yields exactly the apex
`(scaledWidth/2, 0)` and the base corners `(0, scaledHeight)` and
`(scaledWidth, scaledHeight)`; at scale factor `0` all three points are the
origin. -/
theorem generateTrianglePath_spec (mountain : Mountain) (scaleFactor : ℚ) :
    generateTrianglePath mountain scaleFactor =
      { top := (mountain.width * scaleFactor / 2, 0),
        bottomLeft := (0, mountain.height * scaleFactor),
        bottomRight := (mountain.width * scaleFactor, mountain.height * scaleFactor) } ∧
    generateTrianglePath mountain 0 =
      { top := (0, 0), bottomLeft := (0, 0), bottomRight := (0, 0) } := by
  constructor
  · rfl
  · simp [generateTrianglePath]

theorem mathMax_eq_zero {l : List ℚ} (h : l ≠ []) (h0 : ∀ a ∈ l, a = 0) :
    mathMax l = 0 :=
  h0 _ (mathMax_mem h)

theorem jsNumberToString_zero : jsNumberToString 0 = "0" := rfl

theorem calculateSVGViewBox_nonempty (mountains : List Mountain)
    (scaleFactor spacing : ℚ) (h : mountains ≠ []) :
    calculateSVGViewBox mountains scaleFactor spacing =
      "0 0 " ++ jsNumberToString
          ((mountains.map (fun m => m.width * scaleFactor)).sum +
            ((mountains.length : ℚ) - 1) * spacing) ++ " " ++
        jsNumberToString (mathMax (mountains.map (fun m => m.height * scaleFactor))) := by
  have hlen : ¬ mountains.length = 0 := by simpa [List.length_eq_zero] using h
  have e0 : (mountains.map (fun mountain => calculateScaledDimensions mountain scaleFactor)).foldl
      (fun sum mountain => sum + mountain.scaledWidth) 0 =
      (mountains.map (fun m => m.width * scaleFactor)).sum := by
    rw [foldl_scaledWidth_sum, zero_add, List.map_map]
    rfl
  have e2 : (mountains.map (fun mountain => calculateScaledDimensions mountain scaleFactor)).map
      (fun mountain => mountain.scaledHeight) =
      mountains.map (fun m => m.height * scaleFactor) := by
    rw [List.map_map]
    rfl
  unfold calculateSVGViewBox
  rw [if_neg hlen]
  show "0 0 " ++ jsNumberToString
      ((mountains.map (fun mountain => calculateScaledDimensions mountain scaleFactor)).foldl
        (fun sum mountain => sum + mountain.scaledWidth) 0 +
        ((mountains.length : ℚ) - 1) * spacing) ++ " " ++
      jsNumberToString (mathMax
        ((mountains.map (fun mountain => calculateScaledDimensions mountain scaleFactor)).map
          (fun mountain => mountain.scaledHeight))) = _
  rw [e0, e2]

/-- Claim C5: `calculateSVGViewBox` returns the fixed `0 0 100 100` sentinel
for the empty list; for a non-empty list it returns origin `(0, 0)`, width
the sum of the scaled widths plus `spacing * (N - 1)`, and height the
maximum scaled height. -/
theorem calculateSVGViewBox_spec (mountains : List Mountain)
    (scaleFactor spacing : ℚ) :
    calculateSVGViewBox [] scaleFactor spacing = "0 0 100 100" ∧
    (mountains ≠ [] →
      ∃ vbHeight : ℚ,
        calculateSVGViewBox mountains scaleFactor spacing =
          "0 0 " ++ jsNumberToString
              ((mountains.map (fun m => m.width * scaleFactor)).sum +
                spacing * ((mountains.length : ℚ) - 1)) ++ " " ++
            jsNumberToString vbHeight ∧
        (∃ m ∈ mountains, vbHeight = m.height * scaleFactor) ∧
        (∀ m ∈ mountains, m.height * scaleFactor ≤ vbHeight)) := by
  refine ⟨rfl, ?_⟩
  intro h
  refine ⟨mathMax (mountains.map (fun m => m.height * scaleFactor)), ?_, ?_, ?_⟩
  · rw [calculateSVGViewBox_nonempty mountains scaleFactor spacing h,
      mul_comm spacing ((mountains.length : ℚ) - 1)]
  · have hmap : mountains.map (fun m => m.height * scaleFactor) ≠ [] := by simpa using h
    obtain ⟨m, hm, hv⟩ := List.mem_map.mp (mathMax_mem hmap)
    exact ⟨m, hm, hv.symm⟩
  · intro m hm
    exact le_mathMax (List.mem_map_of_mem _ hm)

/-- Witness for C5 at a concrete one-element list. -/
theorem calculateSVGViewBox_spec_inst :
    ∃ vbHeight : ℚ,
      calculateSVGViewBox [mountainA] 2 7 =
        "0 0 " ++ jsNumberToString
            (([mountainA].map (fun m => m.width * 2)).sum +
              7 * (([mountainA].length : ℚ) - 1)) ++ " " ++
          jsNumberToString vbHeight ∧
      (∃ m ∈ [mountainA], vbHeight = m.height * 2) ∧
      (∀ m ∈ [mountainA], m.height * 2 ≤ vbHeight) :=
  (calculateSVGViewBox_spec [mountainA] 2 7).2 (by simp)

/-- Claim C10: for non-empty input `calculateSVGViewBox` can be degenerate:
a single entity at scale factor `0` yields the zero-size `0 0 0 0`, and `N`
entities at scale factor `0` yield width `(N - 1) * spacing` and height `0`;
the `0 0 100 100` sentinel is only the empty list's output. -/
theorem calculateSVGViewBox_degenerate (mountains : List Mountain)
    (m : Mountain) (spacing : ℚ) :
    calculateSVGViewBox [m] 0 spacing = "0 0 0 0" ∧
    (mountains ≠ [] →
      calculateSVGViewBox mountains 0 spacing =
        "0 0 " ++ jsNumberToString (((mountains.length : ℚ) - 1) * spacing) ++
          " " ++ "0") := by
  constructor
  · rw [calculateSVGViewBox_nonempty [m] 0 spacing (by simp)]
    have h1 : ([m].map (fun x => x.width * 0)).sum + (([m].length : ℚ) - 1) * spacing = 0 := by
      simp
    have h2 : mathMax ([m].map (fun x => x.height * 0)) = 0 := by
      simp [mathMax]
    rw [h1, h2]
    rfl
  · intro h
    rw [calculateSVGViewBox_nonempty mountains 0 spacing h]
    have h1 : (mountains.map (fun x => x.width * 0)).sum +
        ((mountains.length : ℚ) - 1) * spacing =
        ((mountains.length : ℚ) - 1) * spacing := by
      have hz : (mountains.map (fun x => x.width * 0)).sum = 0 :=
        List.sum_eq_zero (by simp)
      rw [hz, zero_add]
    have h2 : mathMax (mountains.map (fun x => x.height * 0)) = 0 :=
      mathMax_eq_zero (by simpa using h) (by simp)
    rw [h1, h2]
    rfl

/-- Witness for C10 at a concrete two-element list. -/
theorem calculateSVGViewBox_degenerate_inst :
    calculateSVGViewBox [mountainA, mountainB] 0 5 =
      "0 0 " ++ jsNumberToString ((([mountainA, mountainB].length : ℚ) - 1) * 5) ++
        " " ++ "0" :=
  (calculateSVGViewBox_degenerate [mountainA, mountainB] mountainA 5).2 (by simp)

theorem any_id_eq_true {prev : List Mountain} {mountain : Mountain}
    (h : ∃ m ∈ prev, m.id = mountain.id) :
    prev.any (fun m => m.id == mountain.id) = true := by
  rw [List.any_eq_true]
  obtain ⟨m, hm, he⟩ := h
  exact ⟨m, hm, by simpa using he⟩

theorem any_id_eq_false {prev : List Mountain} {mountain : Mountain}
    (h : ∀ m ∈ prev, m.id ≠ mountain.id) :
    prev.any (fun m => m.id == mountain.id) = false := by
  rw [Bool.eq_false_iff, Ne, List.any_eq_true]
  push_neg
  intro m hm
  simpa using h m hm

theorem length_filter_lt {α : Type} (p : α → Bool) (l : List α)
    (h : ∃ x ∈ l, p x = false) : (l.filter p).length < l.length := by
  induction l with
  | nil => simp at h
  | cons b t ih =>
    obtain ⟨x, hx, hpx⟩ := h
    rcases List.mem_cons.mp hx with rfl | hxt
    · rw [List.filter_cons, if_neg (by simp [hpx])]
      exact Nat.lt_succ_of_le (List.length_filter_le p t)
    · have hlt := ih ⟨x, hxt, hpx⟩
      rw [List.filter_cons]
      by_cases hb : p b = true
      · rw [if_pos (by simp [hb])]
        simpa using Nat.succ_lt_succ hlt
      · rw [if_neg (by simp [hb])]
        exact Nat.lt_trans hlt (Nat.lt_succ_self _)

/-- Claim C6: toggling removes a member with a matching id regardless of
position (even at the cap), appends when the id is absent and the size is
below 10, and is a silent no-op when the id is absent at size 10. -/
theorem handleMountainToggle_spec (prev : List Mountain) (mountain : Mountain) :
    ((∃ m ∈ prev, m.id = mountain.id) →
      handleMountainToggle prev mountain =
        prev.filter (fun m => m.id != mountain.id)) ∧
    ((∀ m ∈ prev, m.id ≠ mountain.id) → prev.length < 10 →
      handleMountainToggle prev mountain = prev ++ [mountain]) ∧
    ((∀ m ∈ prev, m.id ≠ mountain.id) → 10 ≤ prev.length →
      handleMountainToggle prev mountain = prev) := by
  refine ⟨?_, ?_, ?_⟩
  · intro h
    simp [handleMountainToggle, any_id_eq_true h]
  · intro h hlen
    simp [handleMountainToggle, any_id_eq_false h, Nat.not_le.mpr hlen]
  · intro h hlen
    simp [handleMountainToggle, any_id_eq_false h, hlen]

/-- Witness for C6: removal at a concrete two-element selection and append
at a concrete one-element selection. -/
theorem handleMountainToggle_spec_inst :
    handleMountainToggle [mountainA, mountainB] mountainA =
      [mountainA, mountainB].filter (fun m => m.id != mountainA.id) ∧
    handleMountainToggle [mountainB] mountainA = [mountainB] ++ [mountainA] := by
  constructor
  · exact (handleMountainToggle_spec [mountainA, mountainB] mountainA).1
      ⟨mountainA, by simp, rfl⟩
  · exact (handleMountainToggle_spec [mountainB] mountainA).2.1 (by decide) (by decide)

/-- Counterexample to claim C7: toggling `mountainA` twice on the selection
`[mountainA, mountainB]` gives `[mountainB, mountainA]`, which has the same
members but not the original order. -/
theorem handleMountainToggle_doubleToggle_cex :
    handleMountainToggle (handleMountainToggle [mountainA, mountainB] mountainA)
        mountainA = [mountainB, mountainA] ∧
    [mountainB, mountainA] ≠ [mountainA, mountainB] := by
  constructor
  · decide
  · decide

/-- Claim C7 as amended: toggling an entity whose id is absent twice returns
exactly the original selection; toggling a present entity twice (on a
selection within the cap) returns the other members in their order with the
toggled entity moved to the end, so the original order is generally not
restored. -/
theorem handleMountainToggle_doubleToggle (prev : List Mountain)
    (mountain : Mountain) :
    ((∀ m ∈ prev, m.id ≠ mountain.id) →
      handleMountainToggle (handleMountainToggle prev mountain) mountain = prev) ∧
    (prev.length ≤ 10 → (∃ m ∈ prev, m.id = mountain.id) →
      handleMountainToggle (handleMountainToggle prev mountain) mountain =
        prev.filter (fun m => m.id != mountain.id) ++ [mountain]) := by
  constructor
  · intro h
    rcases Nat.lt_or_ge prev.length 10 with hlen | hlen
    · have t1 : handleMountainToggle prev mountain = prev ++ [mountain] := by
        simp [handleMountainToggle, any_id_eq_false h, Nat.not_le.mpr hlen]
      have hb2 : (prev ++ [mountain]).any (fun m => m.id == mountain.id) = true := by
        rw [List.any_eq_true]
        exact ⟨mountain, by simp, by simp⟩
      have t2 : handleMountainToggle (prev ++ [mountain]) mountain =
          (prev ++ [mountain]).filter (fun m => m.id != mountain.id) := by
        simp [handleMountainToggle, hb2]
      rw [t1, t2, List.filter_append]
      have e1 : prev.filter (fun m => m.id != mountain.id) = prev := by
        rw [List.filter_eq_self]
        intro m hm
        simpa using h m hm
      have e2 : [mountain].filter (fun m => m.id != mountain.id) = [] := by simp
      rw [e1, e2, List.append_nil]
    · have t1 : handleMountainToggle prev mountain = prev := by
        simp [handleMountainToggle, any_id_eq_false h, hlen]
      rw [t1, t1]
  · intro hlen h
    have t1 : handleMountainToggle prev mountain =
        prev.filter (fun m => m.id != mountain.id) := by
      simp [handleMountainToggle, any_id_eq_true h]
    rw [t1]
    have hb2 : (prev.filter (fun m => m.id != mountain.id)).any
        (fun m => m.id == mountain.id) = false := by
      rw [Bool.eq_false_iff, Ne, List.any_eq_true]
      push_neg
      intro m hm
      have := (List.mem_filter.mp hm).2
      simpa using this
    have hlt : (prev.filter (fun m => m.id != mountain.id)).length < 10 := by
      obtain ⟨m, hm, he⟩ := h
      have h1 : (prev.filter (fun m => m.id != mountain.id)).length < prev.length :=
        length_filter_lt _ prev ⟨m, hm, by simp [he]⟩
      exact lt_of_lt_of_le h1 hlen
    simp [handleMountainToggle, hb2, Nat.not_le.mpr hlt]

/-- Witness for the amended C7 at concrete selections. -/
theorem handleMountainToggle_doubleToggle_inst :
    handleMountainToggle (handleMountainToggle [mountainB] mountainA) mountainA =
      [mountainB] ∧
    handleMountainToggle (handleMountainToggle [mountainA, mountainB] mountainA)
        mountainA =
      [mountainA, mountainB].filter (fun m => m.id != mountainA.id) ++ [mountainA] := by
  constructor
  · exact (handleMountainToggle_doubleToggle [mountainB] mountainA).1 (by decide)
  · exact (handleMountainToggle_doubleToggle [mountainA, mountainB] mountainA).2
      (by decide) ⟨mountainA, by simp, rfl⟩

/-- A raw element whose height is `Infinity` and whose other fields are
valid: the input claim C8 says must be rejected. -/
def rawInfMountain : RawMountain :=
  { id := JSValue.str "everest", name := JSValue.str "Everest",
    height := JSValue.number JSNumber.posInf,
    width := JSValue.number (JSNumber.finite 1),
    country := JSValue.undefined, region := JSValue.undefined }

/-- A raw element whose height is negative and whose other fields are valid. -/
def rawNegMountain : RawMountain :=
  { id := JSValue.str "k2", name := JSValue.str "K2",
    height := JSValue.number (JSNumber.finite (-5)),
    width := JSValue.number (JSNumber.finite 4),
    country := JSValue.undefined, region := JSValue.undefined }

/-- Counterexample to claim C8: an element whose height is `Infinity`
passes validation (the validator checks only `typeof`, `!isNaN` and
`> 0`, and `Infinity > 0` holds), where the claim requires a
`ValidationError` naming the height field. -/
theorem validateMountain_posInf_cex :
    validateMountain rawInfMountain (some 0) = Except.ok () := by
  rfl

/-- Claim C8 as amended: a required `height`/`width` field is rejected with
a `ValidationError` carrying the field name and the element's index exactly
when `isValidPositiveNumber` fails, and that constraint is: a number, not
`NaN`, strictly greater than `0` under JS comparison — so non-positive and
`NaN` values are rejected but `Infinity` is accepted. -/
theorem validateMountain_dimensions (obj : RawMountain) (index : Option Nat) :
    (isValidString obj.id = true → isValidString obj.name = true →
      isValidPositiveNumber obj.height = false →
      validateMountain obj index = Except.error
        { message := "Mountain height must be a positive number" ++ indexSuffix index,
          field := some "height", index := index }) ∧
    (isValidString obj.id = true → isValidString obj.name = true →
      isValidPositiveNumber obj.height = true →
      isValidPositiveNumber obj.width = false →
      validateMountain obj index = Except.error
        { message := "Mountain width must be a positive number" ++ indexSuffix index,
          field := some "width", index := index }) ∧
    (∀ q : ℚ, isValidPositiveNumber (JSValue.number (JSNumber.finite q)) =
      decide (0 < q)) ∧
    isValidPositiveNumber (JSValue.number JSNumber.nan) = false ∧
    isValidPositiveNumber (JSValue.number JSNumber.posInf) = true := by
  refine ⟨?_, ?_, ?_, rfl, rfl⟩
  · intro h1 h2 h3
    simp [validateMountain, h1, h2, h3]
  · intro h1 h2 h3 h4
    simp [validateMountain, h1, h2, h3, h4]
  · intro q
    simp [isValidPositiveNumber, JSNumber.isNaN, JSNumber.gtZero]

/-- Witness for the amended C8: a negative height at index 3 is rejected
with the height field and that index. -/
theorem validateMountain_dimensions_inst :
    validateMountain rawNegMountain (some 3) = Except.error
      { message := "Mountain height must be a positive number" ++ indexSuffix (some 3),
        field := some "height", index := some 3 } :=
  (validateMountain_dimensions rawNegMountain (some 3)).1 rfl rfl rfl

/-- Counterexample to claim C9: a transport failure, an unparseable body and
semantically invalid data all reject with an error of the same JS type
(`DataLoadError`), so the caller cannot tell the retryable kind from the
non-retryable kinds by the error's type. -/
theorem loadMountainData_errType_cex :
    errName (loadMountainData (FetchResult.networkFailure "Failed to fetch")) =
      some "DataLoadError" ∧
    errName (loadMountainData (FetchResult.parseFailure "Unexpected token")) =
      some "DataLoadError" ∧
    errName (loadMountainData (FetchResult.parsed RawData.notObject)) =
      some "DataLoadError" := by
  refine ⟨rfl, rfl, rfl⟩

/-- Claim C9 as amended: `loadMountainData` either resolves with the
validated array or rejects with the single error type `DataLoadError` in
every failure case; the three failure kinds — transport failure,
unparseable body, invalid data — are told apart by the error's message and
wrapped cause, not by its type. -/
theorem loadMountainData_errorTaxonomy (fetchResult : FetchResult) :
    ((∃ mountains, loadMountainData fetchResult = Except.ok mountains) ∨
      (∃ msg cause, loadMountainData fetchResult =
        Except.error (JSError.dataLoadError msg cause))) ∧
    (∀ msg, messageMentionsFetch msg = true →
      loadMountainData (FetchResult.networkFailure msg) =
        Except.error (JSError.dataLoadError
          "Network error: Unable to fetch mountain data"
          (some (JSError.typeError msg)))) ∧
    (∀ msg, loadMountainData (FetchResult.parseFailure msg) =
      Except.error (JSError.dataLoadError "Invalid JSON format in mountain data"
        (some (JSError.syntaxError msg)))) ∧
    (∀ data e, validateMountainData data = Except.error e →
      loadMountainData (FetchResult.parsed data) =
        Except.error (JSError.dataLoadError ("Data validation failed: " ++ e.message)
          (some (JSError.validationError e)))) := by
  refine ⟨?_, ?_, ?_, ?_⟩
  · cases fetchResult with
    | networkFailure msg =>
      cases hmf : messageMentionsFetch msg
      · exact Or.inr ⟨"Unexpected error loading mountain data",
          some (JSError.typeError msg), by simp [loadMountainData, hmf]⟩
      · exact Or.inr ⟨"Network error: Unable to fetch mountain data",
          some (JSError.typeError msg), by simp [loadMountainData, hmf]⟩
    | httpError status statusText =>
      exact Or.inr ⟨"Failed to load mountain data: " ++ toString status ++ " " ++
        statusText, none, rfl⟩
    | parseFailure msg =>
      exact Or.inr ⟨"Invalid JSON format in mountain data",
        some (JSError.syntaxError msg), rfl⟩
    | parsed data =>
      cases hv : validateMountainData data with
      | error e =>
        exact Or.inr ⟨"Data validation failed: " ++ e.message,
          some (JSError.validationError e), by simp [loadMountainData, hv]⟩
      | ok ms => exact Or.inl ⟨ms, by simp [loadMountainData, hv]⟩
  · intro msg hm
    simp [loadMountainData, hm]
  · intro msg
    rfl
  · intro data e hv
    simp [loadMountainData, hv]

/-- Witness for the amended C9 at a concrete network failure. -/
theorem loadMountainData_errorTaxonomy_inst :
    loadMountainData (FetchResult.networkFailure "Failed to fetch") =
      Except.error (JSError.dataLoadError
        "Network error: Unable to fetch mountain data"
        (some (JSError.typeError "Failed to fetch"))) :=
  (loadMountainData_errorTaxonomy
    (FetchResult.networkFailure "Failed to fetch")).2.1 "Failed to fetch" (by decide)

end OhMyMountain
